import Mathlib

/-!
# Verification of the build-request / build-log protocol handler

Shallow embedding of `podman/domain/images_build.py` (`BuildMixin.build`)
together with proofs about its behaviour.

Conventions:
* Python `Optional[T]` values become `Option T`; Python truthiness is made
  explicit where the source relies on it (`if custom_context:`, `elif remote:`,
  `unknown or "Unknown"`).
* The line-delimited JSON response body becomes a `List Line`, where a `Line`
  is either a line that decodes to a JSON object (with its optional `error`
  and `stream` fields) or a line on which `json.loads` raises.
* `itertools.tee` duplicates the line iterator before the scanning loop runs;
  the replay view handed to the caller (`report_stream`) is never advanced by
  the scan, so when it is drained it yields the whole original line sequence.
  It is therefore embedded as the full input list.
-/

set_option autoImplicit false

namespace PodmanBuild

/-- Left-biased choice on `Option`, mirroring "keep the first `some`". -/
def oOr {α : Type} : Option α → Option α → Option α
  | some a, _ => some a
  | none, b => b

/-- The character class `[0-9a-f]` of the success-marker pattern:
decimal digits and lowercase `a`-`f`. -/
def isLowerHex (c : Char) : Bool :=
  ('0' ≤ c && c ≤ '9') || ('a' ≤ c && c ≤ 'f')

/-- Python `re.compile(r"(^[0-9a-f]+)\n$").match s`, returning group 1
(the hex digits) on success (source line 253, used at line 260).

Python semantics embedded here: `re.match` anchors at the start of the
string, `[0-9a-f]+` greedily takes the (unique, since `'\n'` is not a hex
digit) maximal hex prefix, the literal `\n` consumes one newline, and `$`
without `re.MULTILINE` matches either at the very end of the string or just
before a newline that ends the string.  Hence the pattern accepts both
`hex ++ "\n"` and `hex ++ "\n\n"`. -/
def markerMatch (s : List Char) : Option (List Char) :=
  if s.takeWhile isLowerHex ≠ [] ∧
      (s.dropWhile isLowerHex = ['\n'] ∨ s.dropWhile isLowerHex = ['\n', '\n'])
  then some (s.takeWhile isLowerHex) else none

/-- One line of the daemon's response body (`response.iter_lines()`).

`event err strm raw` is a line whose text `raw` decodes (`json.loads`) to a
JSON object whose `"error"` field is `err` and whose `"stream"` field is
`strm` (each `none` when the field is absent).  `malformed raw` is a line on
which `json.loads` raises `JSONDecodeError`. -/
inductive Line where
  | event (err : Option String) (strm : Option (List Char)) (raw : String)
  | malformed (raw : String)
deriving DecidableEq

/-- The raw text of a line (the value the loop stores in `unknown`). -/
def Line.rawOf : Line → String
  | .event _ _ raw => raw
  | .malformed raw => raw

/-- Result of the build-event interpreter (source lines 252-268).

* `success id log`: the scan reached the end of the stream with a captured
  image identifier; the code then calls the image-lookup collaborator
  `self.get(id)` and returns the looked-up image together with the replay
  view `log`.
* `failure msg log`: `raise BuildError(msg, report_stream)`; `log` is the
  replay view (the whole original line sequence, since `report_stream` was
  never advanced).
* `jsonFail`: `json.loads` raised `JSONDecodeError`; the exception escapes
  the build method and carries no log view (this constructor deliberately
  has no log argument). -/
inductive Outcome where
  | success (id : List Char) (log : List Line)
  | failure (msg : String) (log : List Line)
  | jsonFail
deriving DecidableEq

/-- Python `unknown or "Unknown"` (source line 268): `unknown` is falsy both
when it was never assigned (`None`) and when it is an empty string. -/
def pyOrUnknown : Option String → String
  | none => "Unknown"
  | some s => if s = "" then "Unknown" else s

/-- The scanning loop of source lines 252-268.  `full` is the replay view
(`report_stream`), `img` is `image_id`, `unk` is `unknown`, and the last
argument is the remaining part of the scanned view (`stream`). -/
def scanLoop (full : List Line) : Option (List Char) → Option String → List Line → Outcome
  | img, unk, [] =>
    -- natural end of stream: lines 265-268
    (match img with
     | some id => Outcome.success id full
     | none => Outcome.failure (pyOrUnknown unk) full)
  | _, _, Line.malformed _ :: _ =>
    -- `json.loads(line)` raises: line 256
    Outcome.jsonFail
  | _, _, Line.event (some m) _ _ :: _ =>
    -- `if "error" in result: raise BuildError(...)`: lines 257-258
    Outcome.failure m full
  | img, _, Line.event none strm raw :: rest =>
    -- lines 259-263: keep the capture of a matching stream line, then
    -- `unknown = line`
    let img2 :=
      match strm with
      | some s =>
        (match markerMatch s with
         | some h => some h
         | none => img)
      | none => img
    scanLoop full img2 (some raw) rest

/-- The whole interpreter: `report_stream, stream = itertools.tee(...)` and
then the scan, with `image_id = unknown = None` initially. -/
def interpret (lines : List Line) : Outcome :=
  scanLoop lines none none lines

/-- A line the scan steps over without terminating: it decodes to a JSON
object with no `"error"` field. -/
def lineOk : Line → Bool
  | .event none _ _ => true
  | _ => false

/-- The capture the scan would take from one line: the marker match of its
`"stream"` field, when there is one. -/
def lineCapture : Line → Option (List Char)
  | .event _ (some s) _ => markerMatch s
  | _ => none

/-- The capture of the *last* matching line of the list (later matches win). -/
def lastCapture : List Line → Option (List Char)
  | [] => none
  | l :: rest => oOr (lastCapture rest) (lineCapture l)

/-- The raw text of the last line of the list, if any. -/
def lastRaw : List Line → Option String
  | [] => none
  | l :: rest => oOr (lastRaw rest) (some l.rawOf)

/-! ## The option marshaler (source lines 142-196)

The `params` dict is embedded as an association list in insertion order
(Python dicts preserve it); all keys inserted by the source are pairwise
distinct, so plain list append models dict insertion.
-/

/-- A value stored in the `params` dict.  `null` is Python `None`.
`jsonOfDict d` / `jsonOfList l` stand for `json.dumps` applied to the dict
`d` / the list `l` (the encoder itself is an external detail none of the
claims inspect); `strList` is the repeated `volume` parameter. -/
inductive PV where
  | null
  | str (s : String)
  | bool (b : Bool)
  | int (n : Int)
  | jsonOfDict (d : List (String × String))
  | jsonOfList (l : List String)
  | strList (ss : List String)
deriving DecidableEq

/-- `params[k] = v` for an `Optional[str]` argument `v`. -/
def ovStr : Option String → PV
  | none => PV.null
  | some s => PV.str s

/-- `params[k] = v` for an `Optional[bool]` argument `v`. -/
def ovBool : Option Bool → PV
  | none => PV.null
  | some b => PV.bool b

/-- `params[k] = v` for an `Optional[int]` argument `v`. -/
def ovInt : Option Int → PV
  | none => PV.null
  | some n => PV.int n

/-- The `mode` entry of one `volumes` value: absent (`target.get('mode', [])`
yields `[]`), a single scalar (e.g. a plain string — rejected by the
`isinstance(mode, list)` check), or a list of mode flags. -/
inductive ModeField where
  | absent
  | scalar (s : String)
  | seq (ms : List String)
deriving DecidableEq

/-- One `volumes` value: `{'bind': ..., 'mode': ...}`. -/
structure VolumeSpec where
  bind : Option String := none
  mode : ModeField := ModeField.absent
deriving DecidableEq

/-- The `container_limits` dict (source lines 173-179 reads these six keys
with `.get`, so an absent key yields `None`). -/
structure ContainerLimits where
  memory : Option Int := none
  memswap : Option Int := none
  cpushares : Option Int := none
  cpusetcpus : Option String := none
  cpuperiod : Option Int := none
  cpuquota : Option Int := none
deriving DecidableEq

/-- How the caller supplied the `dockerfile` keyword: left to its default
(a process-wide random `.containerfile.<40 hex digits>` name, source line
39), explicitly `None`, or an explicit name. -/
inductive DockerfileArg where
  | omitted
  | explicitNone
  | given (s : String)
deriving DecidableEq

/-- The arguments of one `build(...)` call.

* `fileobj` is abstract (`Unit`): only its presence matters to the control
  flow; its bytes flow into the request body unobserved.
* Python distinguishes an absent collection argument from an empty one only
  through truthiness (`if buildargs:` is false for both `None` and `{}`),
  so the four JSON-encoded collections and `volumes` are embedded as plain
  lists with `[]` standing for absent-or-empty.
* `container_limits`: `none` stands for `None` or `{}` (both falsy); the
  field options inside model per-key presence.
* `gzipKw` / `encodingKw` model the *presence* of the `gzip` / `encoding`
  keys in `**kwargs` (source line 145 tests membership, not value).
-/
structure BuildRequest where
  path : Option String := none
  fileobj : Option Unit := none
  tag : Option String := none
  quiet : Option Bool := none
  remote : Option String := none
  nocache : Option Bool := none
  rm : Option Bool := none
  custom_context : Option Bool := none
  pull : Option Bool := none
  forcerm : Option Bool := none
  dockerfile : DockerfileArg := DockerfileArg.omitted
  buildargs : List (String × String) := []
  container_limits : Option ContainerLimits := none
  shmsize : Option Int := none
  labels : List (String × String) := []
  cache_from : List String := []
  target : Option String := none
  network_mode : Option String := none
  squash : Option Bool := none
  extra_hosts : List (String × String) := []
  platform : Option String := none
  http_proxy : Option Bool := none
  layers : Option Bool := some true
  output : Option String := none
  outputformat : Option String := some "application/vnd.oci.image.manifest.v1+json"
  volumes : List (String × VolumeSpec) := []
  gzipKw : Bool := false
  encodingKw : Bool := false
deriving DecidableEq

/-- The value the `dockerfile` parameter actually has inside the call. -/
def resolveDockerfile (d : DockerfileArg) (defaultName : String) : Option String :=
  match d with
  | DockerfileArg.omitted => some defaultName
  | DockerfileArg.explicitNone => none
  | DockerfileArg.given s => some s

/-- The initial `params` dict literal of source lines 148-166, in source
order. -/
def baseParams (r : BuildRequest) (dval : Option String) : List (String × PV) :=
  [("dockerfile", ovStr dval),
   ("forcerm", ovBool r.forcerm),
   ("httpproxy", ovBool r.http_proxy),
   ("networkmode", ovStr r.network_mode),
   ("nocache", ovBool r.nocache),
   ("platform", ovStr r.platform),
   ("pull", ovBool r.pull),
   ("q", ovBool r.quiet),
   ("remote", ovStr r.remote),
   ("rm", ovBool r.rm),
   ("shmsize", ovInt r.shmsize),
   ("squash", ovBool r.squash),
   ("t", ovStr r.tag),
   ("target", ovStr r.target),
   ("layers", ovBool r.layers),
   ("output", ovStr r.output),
   ("outputformat", ovStr r.outputformat)]

/-- The conditional insertions of source lines 168-184, in source order. -/
def structuredParams (r : BuildRequest) : List (String × PV) :=
  (if r.buildargs ≠ [] then [("buildargs", PV.jsonOfDict r.buildargs)] else [])
  ++ (if r.cache_from ≠ [] then [("cachefrom", PV.jsonOfList r.cache_from)] else [])
  ++ (match r.container_limits with
      | none => []
      | some cl =>
        [("cpuperiod", ovInt cl.cpuperiod),
         ("cpuquota", ovInt cl.cpuquota),
         ("cpusetcpus", ovStr cl.cpusetcpus),
         ("cpushares", ovInt cl.cpushares),
         ("memory", ovInt cl.memory),
         ("memswap", ovInt cl.memswap)])
  ++ (if r.extra_hosts ≠ [] then [("extrahosts", PV.jsonOfDict r.extra_hosts)] else [])
  ++ (if r.labels ≠ [] then [("labels", PV.jsonOfDict r.labels)] else [])

/-- The `volumes` loop of source lines 186-196: each entry is checked
(`bind` present, `mode` a list) and flattened to
`hostdir:binddir:mode-flags-joined-by-commas`; the first bad entry raises
`ValueError` with the shown message.  `target.get('mode', [])` makes an
absent mode an empty list. -/
def marshalVolumes : List (String × VolumeSpec) → Except String (List String)
  | [] => Except.ok []
  | (hostdir, t) :: rest =>
    match t.bind with
    | none => Except.error ("volume " ++ hostdir ++ " 'bind' value not defined")
    | some binddir =>
      match t.mode with
      | ModeField.scalar _ =>
        Except.error ("volume " ++ hostdir ++ " 'mode' value should be a list")
      | ModeField.absent =>
        (marshalVolumes rest).map
          (fun vs => (hostdir ++ ":" ++ binddir ++ ":" ++ String.intercalate "," []) :: vs)
      | ModeField.seq ms =>
        (marshalVolumes rest).map
          (fun vs => (hostdir ++ ":" ++ binddir ++ ":" ++ String.intercalate "," ms) :: vs)

/-- The whole marshaling step, source lines 148-196: the base dict, the
conditional structured entries, and — when `volumes` is truthy — the
flattened `volume` list (or the `ValueError` from its validation). -/
def marshalParams (r : BuildRequest) (dval : Option String) :
    Except String (List (String × PV)) :=
  if r.volumes ≠ [] then
    match marshalVolumes r.volumes with
    | Except.error m => Except.error m
    | Except.ok vs =>
      Except.ok (baseParams r dval ++ structuredParams r ++ [("volume", PV.strList vs)])
  else Except.ok (baseParams r dval ++ structuredParams r)

/-- Dict lookup on the embedded `params`. -/
def lookupParam (ps : List (String × PV)) (k : String) : Option PV :=
  (ps.find? (fun p => p.1 == k)).map (fun p => p.2)

/-- Dict assignment `params[k] = v` for a key that may already be present
(used by the directory branch, source line 222). -/
def setParam (ps : List (String × PV)) (k : String) (v : PV) : List (String × PV) :=
  if ps.any (fun p => p.1 == k) then
    ps.map (fun p => if p.1 == k then (k, v) else p)
  else ps ++ [(k, v)]

/-- A `volumes` entry that passes both validation checks. -/
def volumeOk : String × VolumeSpec → Bool
  | (_, t) =>
    t.bind.isSome &&
      (match t.mode with
       | ModeField.scalar _ => false
       | _ => true)

/-- Reference form of one flattened volume entry. -/
def volumeFmt : String × VolumeSpec → String
  | (hostdir, t) =>
    hostdir ++ ":" ++
      (match t.bind with
       | some b => b
       | none => "") ++ ":" ++
      String.intercalate ","
        (match t.mode with
         | ModeField.seq ms => ms
         | _ => [])

/-! ## The end-to-end build call (source lines 142-268) -/

/-- What `self.client.post("/build", ...)` does: either it raises a
transport-level exception, or it returns a response with an HTTP status
and a body of `iter_lines()` lines. -/
inductive PostOutcome where
  | raiseTransport
  | resp (status : Nat) (lines : List Line)
deriving DecidableEq

/-- Which of the four mutually-overlapping context branches of source
lines 198-227 was taken. -/
inductive CtxMode where
  | customCtx
  | looseFile
  | directory
  | remoteUri
deriving DecidableEq

/-- Observable side effects of one `build` call.

* `postCalled`: `self.client.post(...)` was invoked.
* `mode`: the context branch taken (`none` before/without one).
* `sentParams`: the `params` dict passed to `post`.
* `hasBody`: the request body is a closeable stream (a tarball or
  `BytesIO`; `None` for a remote context has no `close`).
* `tmpCreated`: the loose-file branch created its `TemporaryDirectory`.
* `bodyClosed` / `tmpCleaned`: `body.close()` (source line 244-245) /
  `path.cleanup()` (source line 247-248) ran before control returned. -/
structure Trace where
  postCalled : Bool := false
  mode : Option CtxMode := none
  sentParams : Option (List (String × PV)) := none
  hasBody : Bool := false
  tmpCreated : Bool := false
  bodyClosed : Bool := false
  tmpCleaned : Bool := false
deriving DecidableEq

/-- How a `build` call ends, by the exception class the source raises
(or the returned pair on success).

* `ok id log`: the tuple `(self.get(id), report_stream)`; `id` is the
  identifier handed to the image-lookup collaborator.
* `typeFail`: the `TypeError` of line 143.
* `podmanFail`: a `PodmanError` (lines 146, 200, 208).
* `valueFail`: the `ValueError` of the volume validation (lines 192, 194).
* `notFoundFail` / `apiFail`: `response.raise_for_status(...)` (line 250).
* `buildFail msg log`: `BuildError` with the replay view attached.
* `jsonDecodeFail`: `json.loads` raised on a body line.
* `nameFail`: no branch of lines 198-227 assigned `body`, so evaluating
  the `data=body` argument raises `NameError` (reachable only with a
  falsy non-`None` `remote`, i.e. `remote=""`).
* `transportFail`: the `post` call itself raised. -/
inductive BuildResult where
  | ok (imageId : List Char) (log : List Line)
  | typeFail (msg : String)
  | podmanFail (msg : String)
  | valueFail (msg : String)
  | notFoundFail (status : Nat)
  | apiFail (status : Nat)
  | buildFail (msg : String) (log : List Line)
  | jsonDecodeFail
  | nameFail
  | transportFail
deriving DecidableEq

/-- Modelled from the spec: `response.raise_for_status(not_found=ImageNotFound)`
lives in the transport collaborator (`podman/api/client.py`, not under the
given sources).  Per spec sections 4.3 and 6 it maps the HTTP not-found
status to the distinguished not-found error kind and any other non-success
status to a generic daemon error, and lets success statuses through. -/
def raiseForStatus (status : Nat) : Option BuildResult :=
  if status = 404 then some (BuildResult.notFoundFail status)
  else if 400 ≤ status then some (BuildResult.apiFail status)
  else none

/-- Python truthiness of an `Optional[bool]`. -/
def truthyOptBool : Option Bool → Bool
  | some b => b
  | none => false

/-- Everything from the `post` call on (source lines 229-268): the request
is issued, then — only if `post` returned — the body stream is closed and
the temporary directory removed (lines 244-248, no `try`/`finally`), the
HTTP status checked (line 250) and the body scanned (lines 252-268). -/
def afterBody (env : PostOutcome) (mode : CtxMode) (ps : List (String × PV))
    (hasBody tmpCreated : Bool) : BuildResult × Trace :=
  match env with
  | PostOutcome.raiseTransport =>
    -- the exception propagates before lines 244-248 run
    (BuildResult.transportFail,
      { postCalled := true, mode := some mode, sentParams := some ps,
        hasBody := hasBody, tmpCreated := tmpCreated,
        bodyClosed := false, tmpCleaned := false })
  | PostOutcome.resp status lines =>
    ((match raiseForStatus status with
      | some e => e
      | none =>
        match interpret lines with
        | Outcome.success id log => BuildResult.ok id log
        | Outcome.failure m log => BuildResult.buildFail m log
        | Outcome.jsonFail => BuildResult.jsonDecodeFail),
     { postCalled := true, mode := some mode, sentParams := some ps,
       hasBody := hasBody, tmpCreated := tmpCreated,
       bodyClosed := hasBody, tmpCleaned := tmpCreated })

/-- The `build` method, source lines 142-268.

Environment inputs: `env` is what the transport does with the POST;
`preparedDockerfile` is the value the build-file-resolution collaborator
`api.prepare_containerfile(path, ...)` returns in the directory branch;
`defaultName` is the random `.containerfile.<hex>` default of source
line 39 (evaluated once per process). -/
def build (env : PostOutcome) (preparedDockerfile defaultName : String)
    (r : BuildRequest) : BuildResult × Trace :=
  -- line 142-143
  if r.path = none ∧ r.fileobj = none ∧ r.remote = none then
    (BuildResult.typeFail "Either path, fileobj or remote must be provided.", {})
  -- line 145-146
  else if r.gzipKw = true ∧ r.encodingKw = true then
    (BuildResult.podmanFail "Custom encoding not supported when gzip enabled.", {})
  else
    -- lines 148-196
    match marshalParams r (resolveDockerfile r.dockerfile defaultName) with
    | Except.error m => (BuildResult.valueFail m, {})
    | Except.ok ps =>
      -- lines 198-227
      if truthyOptBool r.custom_context then
        match r.fileobj with
        | none =>
          (BuildResult.podmanFail
            "Custom context requires fileobj to be set to a binary file-like object containing a build-directory tarball.",
           {})
        | some _ =>
          match resolveDockerfile r.dockerfile defaultName with
          | none =>
            (BuildResult.podmanFail
              "Custom context requires specifying the name of the Dockerfile (typically 'Dockerfile' or 'Containerfile').",
             {})
          | some _ => afterBody env CtxMode.customCtx ps true false
      else
        match r.fileobj with
        | some _ => afterBody env CtxMode.looseFile ps true true
        | none =>
          match r.path with
          | some _ =>
            afterBody env CtxMode.directory
              (setParam ps "dockerfile" (PV.str preparedDockerfile)) true false
          | none =>
            match r.remote with
            | some s =>
              if s = "" then (BuildResult.nameFail, {})
              else afterBody env CtxMode.remoteUri ps false false
            | none => (BuildResult.nameFail, {})

/-! ## Concrete inputs used by witnesses and counterexamples -/

/-- A progress line: `{"stream": "step\n"}` (text does not match the marker). -/
def wStep : Line := Line.event none (some ['s', 't', 'e', 'p', '\n']) "ws"

/-- A decoded line with neither `error` nor `stream`. -/
def wPlain : Line := Line.event none none "wp"

/-- A success-marker line `{"stream": "aa\n"}`. -/
def wMark1 : Line := Line.event none (some ['a', 'a', '\n']) "w1"

/-- A later success-marker line `{"stream": "bb\n"}`. -/
def wMark2 : Line := Line.event none (some ['b', 'b', '\n']) "w2"

/-- `build(fileobj=...)`: the loose-file mode, which stages the file in a
temporary directory. -/
def req3 : BuildRequest := { fileobj := some () }

/-- `build(fileobj=<tarball>, custom_context=True)` with the `dockerfile`
keyword omitted, i.e. left to its random default. -/
def req4 : BuildRequest := { fileobj := some (), custom_context := some true }

/-- `build(path=..., container_limits={"memory": 100})`, everything else
unset. -/
def req5 : BuildRequest :=
  { path := some "/ctx", container_limits := some { memory := some 100 } }

/-- The dict marshaled from `req5`. -/
def ps5 : List (String × PV) :=
  baseParams req5 (some "Dockerfile") ++ structuredParams req5

/-- `build(path=..., volumes={"/x": {}})`: a volume entry with no bind. -/
def req7 : BuildRequest :=
  { path := some "/ctx",
    volumes := [("/x", { bind := none, mode := ModeField.absent })] }

/-- A remaining valid context (directory) request used by the C9 witness. -/
def req9 : BuildRequest := { path := some "/dir", remote := some "http://r" }

@[simp] theorem oOr_none_left {α : Type} (b : Option α) : oOr none b = b := rfl

@[simp] theorem oOr_some_left {α : Type} (a : α) (b : Option α) :
    oOr (some a) b = some a := rfl

@[simp] theorem oOr_none_right {α : Type} (a : Option α) : oOr a none = a := by
  cases a <;> rfl

/-! ## Lemmas about the success-marker pattern -/

theorem takeWhile_dropWhile_of_shape (p : Char → Bool) (h : List Char) (c : Char)
    (r : List Char) (hh : ∀ x ∈ h, p x = true) (hc : p c = false) :
    (h ++ c :: r).takeWhile p = h ∧ (h ++ c :: r).dropWhile p = c :: r := by
  induction h with
  | nil =>
    simp only [List.nil_append]
    constructor
    · exact List.takeWhile_cons_of_neg (by simp [hc])
    · exact List.dropWhile_cons_of_neg (by simp [hc])
  | cons a h ih =>
    have ha : p a = true := hh a (by simp)
    have ih2 := ih (fun x hx => hh x (by simp [hx]))
    constructor
    · simpa [List.cons_append, List.takeWhile_cons_of_pos ha] using ih2.1
    · simpa [List.cons_append, List.dropWhile_cons_of_pos ha] using ih2.2

/-- Characterization of the embedded Python match: the pattern
`(^[0-9a-f]+)\n$` matches `s` with capture `h` exactly when `h` is a
non-empty run of lowercase hex digits and `s` is `h` followed by one
newline, or — because Python's `$` also matches just before a newline that
ends the string — `h` followed by two newlines. -/
theorem markerMatch_iff (s h : List Char) :
    markerMatch s = some h ↔
      h ≠ [] ∧ (∀ c ∈ h, isLowerHex c = true) ∧
        (s = h ++ ['\n'] ∨ s = h ++ ['\n', '\n']) := by
  constructor
  · intro hm
    unfold markerMatch at hm
    split at hm
    case isTrue hc =>
      injection hm with hh
      subst hh
      refine ⟨hc.1, fun c hcm => List.mem_takeWhile_imp hcm, ?_⟩
      have hsplit := List.takeWhile_append_dropWhile (p := isLowerHex) (l := s)
      rcases hc.2 with hr | hr
      · rw [hr] at hsplit
        exact Or.inl hsplit.symm
      · rw [hr] at hsplit
        exact Or.inr hsplit.symm
    case isFalse => exact absurd hm (by simp)
  · rintro ⟨hne, hhex, hs | hs⟩ <;> subst hs
    · have hsh := takeWhile_dropWhile_of_shape isLowerHex h '\n' [] hhex (by decide)
      unfold markerMatch
      rw [hsh.1, hsh.2]
      simp [hne]
    · have hsh := takeWhile_dropWhile_of_shape isLowerHex h '\n' ['\n'] hhex (by decide)
      unfold markerMatch
      rw [hsh.1, hsh.2]
      simp [hne]

/-! ## Lemmas about the scanning loop -/

/-- Stepping over a non-error event line updates `image_id` to the line's
capture, when it has one. -/
theorem scanLoop_cons_ok (full : List Line) (img : Option (List Char))
    (unk : Option String) (strm : Option (List Char)) (raw : String)
    (rest : List Line) :
    scanLoop full img unk (Line.event none strm raw :: rest) =
      scanLoop full (oOr (lineCapture (Line.event none strm raw)) img)
        (some raw) rest := by
  cases strm with
  | none => rfl
  | some s =>
    show scanLoop full (match markerMatch s with
        | some h => some h
        | none => img) (some raw) rest = _
    cases hms : markerMatch s <;> simp [lineCapture, hms, oOr]

/-- On a stream of non-error, well-decoded lines the scan reaches the
natural end; the resulting image identifier is the capture of the last
matching line (falling back to the incoming `image_id`), and the fallback
message is the raw text of the last line (falling back to the incoming
`unknown`). -/
theorem scanLoop_all_ok (full : List Line) (lines : List Line)
    (img : Option (List Char)) (unk : Option String)
    (h : ∀ l ∈ lines, lineOk l = true) :
    scanLoop full img unk lines =
      (match oOr (lastCapture lines) img with
       | some id => Outcome.success id full
       | none =>
         Outcome.failure (pyOrUnknown (oOr (lastRaw lines) unk)) full) := by
  induction lines generalizing img unk with
  | nil => rfl
  | cons l rest ih =>
    cases l with
    | malformed raw => exact absurd (h (Line.malformed raw) (by simp)) (by simp [lineOk])
    | event err strm raw =>
      cases err with
      | some m => exact absurd (h (Line.event (some m) strm raw) (by simp)) (by simp [lineOk])
      | none =>
        rw [scanLoop_cons_ok]
        rw [ih _ _ (fun x hx => h x (by simp [hx]))]
        have hcap : oOr (lastCapture rest)
            (oOr (lineCapture (Line.event none strm raw)) img) =
            oOr (lastCapture (Line.event none strm raw :: rest)) img := by
          show _ = oOr (oOr (lastCapture rest)
            (lineCapture (Line.event none strm raw))) img
          cases lastCapture rest <;>
            cases lineCapture (Line.event none strm raw) <;> rfl
        rw [hcap]
        have hraw : oOr (lastRaw rest) (some raw) =
            oOr (lastRaw (Line.event none strm raw :: rest)) unk := by
          show _ = oOr (oOr (lastRaw rest) (some raw)) unk
          cases lastRaw rest <;> rfl
        rw [hraw]

/-- Interpreter on an error-free, well-decoded stream: the captured id of
the last matching line decides success; otherwise the failure message is
the last raw line (or `"Unknown"`), and the full stream is attached. -/
theorem interpret_no_error (lines : List Line)
    (h : ∀ l ∈ lines, lineOk l = true) :
    interpret lines =
      (match lastCapture lines with
       | some id => Outcome.success id lines
       | none =>
         Outcome.failure (pyOrUnknown (lastRaw lines)) lines) := by
  have := scanLoop_all_ok lines lines none none h
  simpa [interpret] using this

/-- Reaching an error event: the scan raises `BuildError` with that event's
message and the full replay view, whatever follows the error line. -/
theorem scanLoop_first_error (full : List Line) (pre post : List Line)
    (m : String) (strm : Option (List Char)) (raw : String)
    (img : Option (List Char)) (unk : Option String)
    (h : ∀ l ∈ pre, lineOk l = true) :
    scanLoop full img unk (pre ++ Line.event (some m) strm raw :: post) =
      Outcome.failure m full := by
  induction pre generalizing img unk with
  | nil => rfl
  | cons l rest ih =>
    cases l with
    | malformed r => exact absurd (h (Line.malformed r) (by simp)) (by simp [lineOk])
    | event err strm2 raw2 =>
      cases err with
      | some m2 => exact absurd (h (Line.event (some m2) strm2 raw2) (by simp)) (by simp [lineOk])
      | none =>
        rw [List.cons_append, scanLoop_cons_ok]
        exact ih _ _ (fun x hx => h x (by simp [hx]))

/-- Reaching a line `json.loads` cannot decode: the decoder exception
escapes and no outcome with a log is produced. -/
theorem scanLoop_first_malformed (full : List Line) (pre post : List Line)
    (raw : String) (img : Option (List Char)) (unk : Option String)
    (h : ∀ l ∈ pre, lineOk l = true) :
    scanLoop full img unk (pre ++ Line.malformed raw :: post) =
      Outcome.jsonFail := by
  induction pre generalizing img unk with
  | nil => rfl
  | cons l rest ih =>
    cases l with
    | malformed r => exact absurd (h (Line.malformed r) (by simp)) (by simp [lineOk])
    | event err strm2 raw2 =>
      cases err with
      | some m2 => exact absurd (h (Line.event (some m2) strm2 raw2) (by simp)) (by simp [lineOk])
      | none =>
        rw [List.cons_append, scanLoop_cons_ok]
        exact ih _ _ (fun x hx => h x (by simp [hx]))

/-- A stream with no matching line yields no capture. -/
theorem lastCapture_eq_none (lines : List Line)
    (h : ∀ l ∈ lines, lineCapture l = none) : lastCapture lines = none := by
  induction lines with
  | nil => rfl
  | cons l rest ih =>
    show oOr (lastCapture rest) (lineCapture l) = none
    rw [ih (fun x hx => h x (by simp [hx])), h l (by simp)]
    rfl

/-- `lastRaw` returns the raw text of one of the lines. -/
theorem lastRaw_mem (lines : List Line) (r : String)
    (h : lastRaw lines = some r) : ∃ l ∈ lines, l.rawOf = r := by
  induction lines with
  | nil => exact absurd h (by simp [lastRaw])
  | cons l rest ih =>
    show ∃ x ∈ l :: rest, x.rawOf = r
    have h2 : oOr (lastRaw rest) (some l.rawOf) = some r := h
    cases hlr : lastRaw rest with
    | none =>
      rw [hlr] at h2
      refine ⟨l, by simp, ?_⟩
      simpa [oOr] using h2
    | some r2 =>
      rw [hlr] at h2
      obtain ⟨x, hx, hxr⟩ := ih (by simp [hlr, oOr] at h2 ⊢; exact h2.symm ▸ rfl)
      exact ⟨x, by simp [hx], hxr⟩

/-! ## Lemmas about the marshaler -/

/-- The first entry with a missing `bind` raises, naming its host path. -/
theorem marshalVolumes_error_bind (pre post : List (String × VolumeSpec))
    (host : String) (t : VolumeSpec) (hpre : ∀ e ∈ pre, volumeOk e = true)
    (hb : t.bind = none) :
    marshalVolumes (pre ++ (host, t) :: post) =
      Except.error ("volume " ++ host ++ " 'bind' value not defined") := by
  induction pre with
  | nil =>
    show marshalVolumes ((host, t) :: post) = _
    unfold marshalVolumes
    rw [hb]
  | cons e pre ih =>
    obtain ⟨ehost, et⟩ := e
    have hok := hpre (ehost, et) (by simp)
    have ih2 := ih (fun x hx => hpre x (by simp [hx]))
    rcases hbind : et.bind with _ | b
    · rw [volumeOk, hbind] at hok
      simp at hok
    · rcases hmode : et.mode with _ | sc | ms
      · show marshalVolumes ((ehost, et) :: (pre ++ (host, t) :: post)) = _
        unfold marshalVolumes
        rw [hbind, hmode, ih2]
        rfl
      · rw [volumeOk, hmode] at hok
        simp at hok
      · show marshalVolumes ((ehost, et) :: (pre ++ (host, t) :: post)) = _
        unfold marshalVolumes
        rw [hbind, hmode, ih2]
        rfl

/-- The first entry whose `mode` is a scalar (after a present `bind`)
raises. -/
theorem marshalVolumes_error_scalar (pre post : List (String × VolumeSpec))
    (host : String) (t : VolumeSpec) (hpre : ∀ e ∈ pre, volumeOk e = true)
    (b sc : String) (hb : t.bind = some b) (hm : t.mode = ModeField.scalar sc) :
    marshalVolumes (pre ++ (host, t) :: post) =
      Except.error ("volume " ++ host ++ " 'mode' value should be a list") := by
  induction pre with
  | nil =>
    show marshalVolumes ((host, t) :: post) = _
    unfold marshalVolumes
    rw [hb, hm]
  | cons e pre ih =>
    obtain ⟨ehost, et⟩ := e
    have hok := hpre (ehost, et) (by simp)
    have ih2 := ih (fun x hx => hpre x (by simp [hx]))
    rcases hbind : et.bind with _ | b2
    · rw [volumeOk, hbind] at hok
      simp at hok
    · rcases hmode : et.mode with _ | sc2 | ms
      · show marshalVolumes ((ehost, et) :: (pre ++ (host, t) :: post)) = _
        unfold marshalVolumes
        rw [hbind, hmode, ih2]
        rfl
      · rw [volumeOk, hmode] at hok
        simp at hok
      · show marshalVolumes ((ehost, et) :: (pre ++ (host, t) :: post)) = _
        unfold marshalVolumes
        rw [hbind, hmode, ih2]
        rfl

/-- All entries valid: the dict value is the list of flattened entries, in
order. -/
theorem marshalVolumes_ok (vols : List (String × VolumeSpec))
    (h : ∀ e ∈ vols, volumeOk e = true) :
    marshalVolumes vols = Except.ok (vols.map volumeFmt) := by
  induction vols with
  | nil => rfl
  | cons e vols ih =>
    obtain ⟨ehost, et⟩ := e
    have hok := h (ehost, et) (by simp)
    have ih2 := ih (fun x hx => h x (by simp [hx]))
    rcases hbind : et.bind with _ | b
    · rw [volumeOk, hbind] at hok
      simp at hok
    · rcases hmode : et.mode with _ | sc | ms
      · show marshalVolumes ((ehost, et) :: vols) = _
        unfold marshalVolumes
        rw [hbind, hmode, ih2]
        simp [volumeFmt, hbind, hmode, Except.map]
      · rw [volumeOk, hmode] at hok
        simp at hok
      · show marshalVolumes ((ehost, et) :: vols) = _
        unfold marshalVolumes
        rw [hbind, hmode, ih2]
        simp [volumeFmt, hbind, hmode, Except.map]

/-- Shape of a successful marshaling: the base dict, the structured
entries, and possibly a final `volume` entry. -/
theorem marshalParams_ok_shape (r : BuildRequest) (dval : Option String)
    (ps : List (String × PV)) (h : marshalParams r dval = Except.ok ps) :
    ps = baseParams r dval ++ structuredParams r
    ∨ ∃ vs, ps = baseParams r dval ++ structuredParams r ++
        [("volume", PV.strList vs)] := by
  unfold marshalParams at h
  by_cases hv : r.volumes = []
  · left
    simp [hv] at h
    exact h.symm
  · right
    simp [hv] at h
    rcases hmv : marshalVolumes r.volumes with m | vs
    · rw [hmv] at h
      exact absurd h (by simp)
    · rw [hmv] at h
      simp at h
      exact ⟨vs, h.symm⟩

theorem lookupParam_nil (k : String) : lookupParam [] k = none := rfl

theorem lookupParam_cons (a : String × PV) (ps : List (String × PV)) (k : String) :
    lookupParam (a :: ps) k =
      if (a.1 == k) = true then some a.2 else lookupParam ps k := by
  cases hp : (a.1 == k) with
  | true => simp [lookupParam, List.find?_cons_of_pos _ hp, hp]
  | false =>
    have hfind : List.find? (fun p => p.1 == k) (a :: ps) =
        List.find? (fun p => p.1 == k) ps :=
      List.find?_cons_of_neg _ (by simp [hp])
    simp [lookupParam, hfind, hp]

theorem lookupParam_append (ps qs : List (String × PV)) (k : String) :
    lookupParam (ps ++ qs) k = oOr (lookupParam ps k) (lookupParam qs k) := by
  induction ps with
  | nil => simp [lookupParam_nil, oOr]
  | cons a ps ih =>
    rw [List.cons_append, lookupParam_cons, lookupParam_cons]
    by_cases hp : (a.1 == k) = true
    · simp [hp, oOr]
    · simp [hp, ih]

theorem lookupParam_ite (c : Prop) [inst : Decidable c]
    (l : List (String × PV)) (k : String) :
    lookupParam (if c then l else []) k =
      if c then lookupParam l k else none := by
  split <;> rfl

/-- Lookup characterization of the conditionally-inserted entries. -/
theorem lookupStructured (r : BuildRequest) :
    lookupParam (structuredParams r) "buildargs" =
        (if r.buildargs = [] then none else some (PV.jsonOfDict r.buildargs))
    ∧ lookupParam (structuredParams r) "cachefrom" =
        (if r.cache_from = [] then none else some (PV.jsonOfList r.cache_from))
    ∧ lookupParam (structuredParams r) "extrahosts" =
        (if r.extra_hosts = [] then none else some (PV.jsonOfDict r.extra_hosts))
    ∧ lookupParam (structuredParams r) "labels" =
        (if r.labels = [] then none else some (PV.jsonOfDict r.labels))
    ∧ lookupParam (structuredParams r) "memory" =
        (match r.container_limits with
         | none => none
         | some cl => some (ovInt cl.memory))
    ∧ lookupParam (structuredParams r) "memswap" =
        (match r.container_limits with
         | none => none
         | some cl => some (ovInt cl.memswap))
    ∧ lookupParam (structuredParams r) "cpushares" =
        (match r.container_limits with
         | none => none
         | some cl => some (ovInt cl.cpushares))
    ∧ lookupParam (structuredParams r) "cpusetcpus" =
        (match r.container_limits with
         | none => none
         | some cl => some (ovStr cl.cpusetcpus))
    ∧ lookupParam (structuredParams r) "cpuperiod" =
        (match r.container_limits with
         | none => none
         | some cl => some (ovInt cl.cpuperiod))
    ∧ lookupParam (structuredParams r) "cpuquota" =
        (match r.container_limits with
         | none => none
         | some cl => some (ovInt cl.cpuquota)) := by
  refine ⟨?_, ?_, ?_, ?_, ?_, ?_, ?_, ?_, ?_, ?_⟩ <;>
  · simp only [structuredParams, lookupParam_append, lookupParam_ite]
    rcases hcl : r.container_limits with _ | cl <;>
      by_cases h1 : r.buildargs = [] <;> by_cases h2 : r.cache_from = [] <;>
      by_cases h3 : r.extra_hosts = [] <;> by_cases h4 : r.labels = [] <;>
      simp [h1, h2, h3, h4, lookupParam_cons, lookupParam_nil, oOr]

/-- Lookup characterization of a successfully marshaled dict: scalar keys
are always present (unset options as `null`); structured collections are
present only when truthy; when a limits record is given all six limit keys
are present, its absent fields as `null`, and when it is not given the six
keys are absent. -/
theorem marshalParams_lookup (r : BuildRequest) (dval : Option String)
    (ps : List (String × PV)) (h : marshalParams r dval = Except.ok ps) :
    lookupParam ps "t" = some (ovStr r.tag)
    ∧ lookupParam ps "target" = some (ovStr r.target)
    ∧ lookupParam ps "platform" = some (ovStr r.platform)
    ∧ lookupParam ps "q" = some (ovBool r.quiet)
    ∧ lookupParam ps "buildargs" =
        (if r.buildargs = [] then none else some (PV.jsonOfDict r.buildargs))
    ∧ lookupParam ps "cachefrom" =
        (if r.cache_from = [] then none else some (PV.jsonOfList r.cache_from))
    ∧ lookupParam ps "extrahosts" =
        (if r.extra_hosts = [] then none else some (PV.jsonOfDict r.extra_hosts))
    ∧ lookupParam ps "labels" =
        (if r.labels = [] then none else some (PV.jsonOfDict r.labels))
    ∧ lookupParam ps "memory" =
        (match r.container_limits with
         | none => none
         | some cl => some (ovInt cl.memory))
    ∧ lookupParam ps "memswap" =
        (match r.container_limits with
         | none => none
         | some cl => some (ovInt cl.memswap))
    ∧ lookupParam ps "cpushares" =
        (match r.container_limits with
         | none => none
         | some cl => some (ovInt cl.cpushares))
    ∧ lookupParam ps "cpusetcpus" =
        (match r.container_limits with
         | none => none
         | some cl => some (ovStr cl.cpusetcpus))
    ∧ lookupParam ps "cpuperiod" =
        (match r.container_limits with
         | none => none
         | some cl => some (ovInt cl.cpuperiod))
    ∧ lookupParam ps "cpuquota" =
        (match r.container_limits with
         | none => none
         | some cl => some (ovInt cl.cpuquota)) := by
  obtain ⟨hs1, hs2, hs3, hs4, hs5, hs6, hs7, hs8, hs9, hs10⟩ := lookupStructured r
  rcases marshalParams_ok_shape r dval ps h with rfl | ⟨vs, rfl⟩ <;>
    refine ⟨rfl, rfl, rfl, rfl, ?_, ?_, ?_, ?_, ?_, ?_, ?_, ?_, ?_, ?_⟩ <;>
    simp [lookupParam_append, baseParams, lookupParam_cons, lookupParam_nil,
      hs1, hs2, hs3, hs4, hs5, hs6, hs7, hs8, hs9, hs10]

/-! ## Lemmas about the end-to-end call -/

/-- The trace left by `afterBody`: the request was posted, the chosen mode
and the sent dict recorded; the cleanup flags equal `hasBody`/`tmpCreated`
exactly when the post returned (and stay `false` when it raised). -/
theorem afterBody_snd (env : PostOutcome) (mode : CtxMode)
    (ps : List (String × PV)) (hasBody tmpCreated : Bool) :
    (afterBody env mode ps hasBody tmpCreated).2 =
      { postCalled := true, mode := some mode, sentParams := some ps,
        hasBody := hasBody, tmpCreated := tmpCreated,
        bodyClosed :=
          (match env with
           | PostOutcome.raiseTransport => false
           | PostOutcome.resp _ _ => hasBody),
        tmpCleaned :=
          (match env with
           | PostOutcome.raiseTransport => false
           | PostOutcome.resp _ _ => tmpCreated) } := by
  cases env <;> rfl

/-- Any `build` call either stops before the POST with an untouched trace,
or hands over to `afterBody`. -/
theorem build_trace_shape (env : PostOutcome) (pd dn : String)
    (r : BuildRequest) :
    (build env pd dn r).2 = ({} : Trace) ∨
    ∃ mode ps hasBody tmpCreated,
      (build env pd dn r).2 = (afterBody env mode ps hasBody tmpCreated).2 := by
  unfold build
  split
  · exact Or.inl rfl
  split
  · exact Or.inl rfl
  split
  · exact Or.inl rfl
  split
  · split
    · exact Or.inl rfl
    split
    · exact Or.inl rfl
    · exact Or.inr ⟨_, _, _, _, rfl⟩
  · split
    · exact Or.inr ⟨_, _, _, _, rfl⟩
    split
    · exact Or.inr ⟨_, _, _, _, rfl⟩
    split
    · split
      · exact Or.inl rfl
      · exact Or.inr ⟨_, _, _, _, rfl⟩
    · exact Or.inl rfl

/-- A marshaling `ValueError` stops the call before the POST. -/
theorem build_volumes_error (env : PostOutcome) (pd dn : String)
    (r : BuildRequest) (m : String)
    (hctx : ¬(r.path = none ∧ r.fileobj = none ∧ r.remote = none))
    (hgz : ¬(r.gzipKw = true ∧ r.encodingKw = true))
    (hm : marshalParams r (resolveDockerfile r.dockerfile dn) = Except.error m) :
    build env pd dn r = (BuildResult.valueFail m, {}) := by
  unfold build
  rw [if_neg hctx, if_neg hgz, hm]

/-- A `marshalVolumes` error is a `marshalParams` error (a `ValueError`
can only come from a truthy, invalid `volumes`). -/
theorem marshalParams_volumes_error (r : BuildRequest) (dval : Option String)
    (m : String) (hm : marshalVolumes r.volumes = Except.error m) :
    marshalParams r dval = Except.error m := by
  have hne : r.volumes ≠ [] := by
    intro h0
    rw [h0] at hm
    exact absurd hm (by simp [marshalVolumes])
  unfold marshalParams
  rw [if_pos hne, hm]

/-- With every `volumes` entry valid, marshaling cannot raise. -/
theorem marshalParams_isOk (r : BuildRequest) (dval : Option String)
    (hv : ∀ e ∈ r.volumes, volumeOk e = true) :
    ∃ ps, marshalParams r dval = Except.ok ps := by
  unfold marshalParams
  by_cases h0 : r.volumes = []
  · rw [if_neg (by simp [h0])]
    exact ⟨_, rfl⟩
  · rw [if_pos h0, marshalVolumes_ok r.volumes hv]
    exact ⟨_, rfl⟩

/-- Requesting a custom context with a file object and a resolvable
build-file name reaches the POST in custom-context mode. -/
theorem build_mode_custom (env : PostOutcome) (pd dn dname : String)
    (r : BuildRequest)
    (hgz : ¬(r.gzipKw = true ∧ r.encodingKw = true))
    (hv : ∀ e ∈ r.volumes, volumeOk e = true)
    (hcc : r.custom_context = some true)
    (hfo : r.fileobj = some ())
    (hdf : resolveDockerfile r.dockerfile dn = some dname) :
    (build env pd dn r).2.mode = some CtxMode.customCtx
    ∧ (build env pd dn r).2.postCalled = true := by
  obtain ⟨ps, hps⟩ := marshalParams_isOk r (resolveDockerfile r.dockerfile dn) hv
  rw [hdf] at hps
  constructor <;>
    simp [build, hgz, hps, hcc, hfo, hdf, truthyOptBool, afterBody_snd]

/-- A file object without custom context reaches the POST in loose-file
mode, whatever `path` and `remote` hold. -/
theorem build_mode_loose (env : PostOutcome) (pd dn : String) (r : BuildRequest)
    (hgz : ¬(r.gzipKw = true ∧ r.encodingKw = true))
    (hv : ∀ e ∈ r.volumes, volumeOk e = true)
    (hcc : truthyOptBool r.custom_context = false)
    (hfo : r.fileobj = some ()) :
    (build env pd dn r).2.mode = some CtxMode.looseFile
    ∧ (build env pd dn r).2.postCalled = true := by
  obtain ⟨ps, hps⟩ := marshalParams_isOk r (resolveDockerfile r.dockerfile dn) hv
  constructor <;>
    simp [build, hgz, hps, hcc, hfo, afterBody_snd]

/-- A directory path with no file object reaches the POST in directory
mode, whatever `remote` holds. -/
theorem build_mode_directory (env : PostOutcome) (pd dn p : String)
    (r : BuildRequest)
    (hgz : ¬(r.gzipKw = true ∧ r.encodingKw = true))
    (hv : ∀ e ∈ r.volumes, volumeOk e = true)
    (hcc : truthyOptBool r.custom_context = false)
    (hfo : r.fileobj = none)
    (hpath : r.path = some p) :
    (build env pd dn r).2.mode = some CtxMode.directory
    ∧ (build env pd dn r).2.postCalled = true := by
  obtain ⟨ps, hps⟩ := marshalParams_isOk r (resolveDockerfile r.dockerfile dn) hv
  constructor <;>
    simp [build, hgz, hps, hcc, hfo, hpath, afterBody_snd]

/-- Only a (truthy) remote URI: the POST is reached with no body. -/
theorem build_mode_remote (env : PostOutcome) (pd dn sr : String)
    (r : BuildRequest)
    (hgz : ¬(r.gzipKw = true ∧ r.encodingKw = true))
    (hv : ∀ e ∈ r.volumes, volumeOk e = true)
    (hcc : truthyOptBool r.custom_context = false)
    (hfo : r.fileobj = none)
    (hpath : r.path = none)
    (hrem : r.remote = some sr)
    (hsr : sr ≠ "") :
    (build env pd dn r).2.mode = some CtxMode.remoteUri
    ∧ (build env pd dn r).2.postCalled = true := by
  obtain ⟨ps, hps⟩ := marshalParams_isOk r (resolveDockerfile r.dockerfile dn) hv
  constructor <;>
    simp [build, hgz, hps, hcc, hfo, hpath, hrem, hsr, afterBody_snd]

/-! ## The claims -/

/-- Claim C1, amended: on an error-free, fully-decoded event stream the
interpreter tests each stream-text field against the compiled pattern
`(^[0-9a-f]+)\n$`; under the Python `re` semantics the code uses, a value
matches exactly when it is a non-empty run of lowercase hexadecimal digits
followed by one trailing newline — or, because `$` also matches just before
a string-final newline, by two trailing newlines; the capture is the hex
run, the capture of the *last* matching line overwrites earlier ones, and
on normal end of stream that identifier is the one handed to the
image-lookup collaborator (`Outcome.success`). -/
theorem c1_amended_theorem (s h : List Char) (lines : List Line)
    (hok : ∀ l ∈ lines, lineOk l = true) :
    (markerMatch s = some h ↔
      h ≠ [] ∧ (∀ c ∈ h, isLowerHex c = true) ∧
        (s = h ++ ['\n'] ∨ s = h ++ ['\n', '\n']))
    ∧ interpret lines =
        (match lastCapture lines with
         | some id => Outcome.success id lines
         | none => Outcome.failure (pyOrUnknown (lastRaw lines)) lines) :=
  ⟨markerMatch_iff s h, interpret_no_error lines hok⟩

/-- Claim C1 fails as stated: the stream value `"abc\n\n"` matches the
code's pattern (capturing `"abc"`) although it is not a hex run followed by
a single trailing newline, so "matches if and only if it has that exact
shape" is false. -/
theorem c1_counterexample :
    markerMatch ['a', 'b', 'c', '\n', '\n'] = some ['a', 'b', 'c']
    ∧ ¬ ∃ h : List Char, h ≠ [] ∧ (∀ c ∈ h, isLowerHex c = true) ∧
        ['a', 'b', 'c', '\n', '\n'] = h ++ ['\n'] := by
  refine ⟨by decide, ?_⟩
  rintro ⟨h, hne, hhex, heq⟩
  have h5 : h ++ ['\n'] = ['a', 'b', 'c', '\n'] ++ ['\n'] := by
    rw [← heq]
    decide
  have h4 : h = ['a', 'b', 'c', '\n'] := List.append_cancel_right h5
  subst h4
  exact absurd (hhex '\n' (by decide)) (by decide)

/-- Witness for C1: `"ab\n"` matches with capture `"ab"`, and on the stream
`{"stream":"aa\n"}`, `{"stream":"bb\n"}` the later marker wins. -/
theorem c1_witness :
    (markerMatch ['a', 'b', '\n'] = some ['a', 'b'] ↔
      ['a', 'b'] ≠ [] ∧ (∀ c ∈ ['a', 'b'], isLowerHex c = true) ∧
        (['a', 'b', '\n'] = ['a', 'b'] ++ ['\n'] ∨
          ['a', 'b', '\n'] = ['a', 'b'] ++ ['\n', '\n']))
    ∧ interpret [wMark1, wMark2] = Outcome.success ['b', 'b'] [wMark1, wMark2] :=
  c1_amended_theorem ['a', 'b', '\n'] ['a', 'b'] [wMark1, wMark2] (by decide)

/-- Claim C2: an event with an `error` field raises a build failure with
exactly that message at the first such event — the result does not depend
on anything after the error line (here `post` is arbitrary, even lines the
decoder would reject) — and the attached replay view, fully drained, is the
whole original stream, lines after the error included. -/
theorem c2_theorem (pre post : List Line) (m : String)
    (strm : Option (List Char)) (raw : String)
    (hok : ∀ l ∈ pre, lineOk l = true) :
    interpret (pre ++ Line.event (some m) strm raw :: post) =
      Outcome.failure m (pre ++ Line.event (some m) strm raw :: post) :=
  scanLoop_first_error (pre ++ Line.event (some m) strm raw :: post)
    pre post m strm raw none none hok

/-- Witness for C2: `{"error":"no such file"}` between a progress line and
a trailing undecodable line. -/
theorem c2_witness :
    interpret ([wStep] ++ Line.event (some "no such file") none "we" ::
        [Line.malformed "not json"]) =
      Outcome.failure "no such file"
        ([wStep] ++ Line.event (some "no such file") none "we" ::
          [Line.malformed "not json"]) :=
  c2_theorem [wStep] [Line.malformed "not json"] "no such file" none "we"
    (by decide)

/-- Claim C3, amended: when the POST call returns a response — success,
daemon-reported HTTP error, or build failure — the archive stream is closed
and any temporary staging directory deleted before control returns
(`bodyClosed = hasBody`, `tmpCleaned = tmpCreated`); but when the POST call
itself raises a transport error, neither cleanup runs (there is no
`try`/`finally` around source lines 233-248). -/
theorem c3_amended_theorem (pd dn : String) (r : BuildRequest) (status : Nat)
    (lines : List Line) :
    ((build (PostOutcome.resp status lines) pd dn r).2.bodyClosed =
        (build (PostOutcome.resp status lines) pd dn r).2.hasBody
      ∧ (build (PostOutcome.resp status lines) pd dn r).2.tmpCleaned =
        (build (PostOutcome.resp status lines) pd dn r).2.tmpCreated)
    ∧ ((build PostOutcome.raiseTransport pd dn r).2.bodyClosed = false
      ∧ (build PostOutcome.raiseTransport pd dn r).2.tmpCleaned = false) := by
  constructor
  · rcases build_trace_shape (PostOutcome.resp status lines) pd dn r with
      h | ⟨mode, ps, hb, tc, h⟩ <;> rw [h]
    · exact ⟨rfl, rfl⟩
    · rw [afterBody_snd]
      exact ⟨rfl, rfl⟩
  · rcases build_trace_shape PostOutcome.raiseTransport pd dn r with
      h | ⟨mode, ps, hb, tc, h⟩ <;> rw [h]
    · exact ⟨rfl, rfl⟩
    · rw [afterBody_snd]
      exact ⟨rfl, rfl⟩

/-- Claim C3 fails as stated: a loose-file build whose POST raises a
transport error returns with the temporary staging directory created but
not deleted and the archive stream not closed. -/
theorem c3_counterexample :
    (build PostOutcome.raiseTransport "pd" "df" req3).1 =
      BuildResult.transportFail
    ∧ (build PostOutcome.raiseTransport "pd" "df" req3).2.hasBody = true
    ∧ (build PostOutcome.raiseTransport "pd" "df" req3).2.bodyClosed = false
    ∧ (build PostOutcome.raiseTransport "pd" "df" req3).2.tmpCreated = true
    ∧ (build PostOutcome.raiseTransport "pd" "df" req3).2.tmpCleaned = false :=
  ⟨rfl, rfl, rfl, rfl, rfl⟩

/-- Claim C4 (code bug): requesting a custom context *without giving* the
`dockerfile` keyword does not raise the intended configuration error — the
random default of source line 39 makes the `dockerfile is None` check of
line 203 unreachable on omission, so the call proceeds to the network with
the random name as the `dockerfile` parameter (first conjunct; here the
daemon answers 200 with an empty stream, so the call ends in a
`BuildError`, not a `PodmanError`).  Only an explicit `dockerfile=None`
triggers the check (second conjunct).  The repository's own test
(`test_build_with_context`, `src/podman/tests/integration/test_images.py`
lines 185-187) asserts that the omission raises `PodmanError`, so the code
contradicts its own test suite. -/
theorem c4_theorem :
    ((build (PostOutcome.resp 200 []) "pd" ".containerfile.4a3f" req4).1 =
        BuildResult.buildFail "Unknown" []
      ∧ (build (PostOutcome.resp 200 []) "pd" ".containerfile.4a3f"
          req4).2.postCalled = true
      ∧ (build (PostOutcome.resp 200 []) "pd" ".containerfile.4a3f"
          req4).2.mode = some CtxMode.customCtx)
    ∧ (build (PostOutcome.resp 200 []) "pd" ".containerfile.4a3f"
        { req4 with dockerfile := DockerfileArg.explicitNone }).1 =
      BuildResult.podmanFail
        "Custom context requires specifying the name of the Dockerfile (typically 'Dockerfile' or 'Containerfile')." :=
  ⟨⟨rfl, rfl, rfl⟩, rfl⟩

/-- Claim C5, amended: the marshaled mapping contains every scalar
parameter key, with unset scalar options mapped to Python `None` rather
than omitted; the JSON-encoded collections (`buildargs`, `cachefrom`,
`extrahosts`, `labels`) are omitted exactly when absent or empty; and when
a `container_limits` record is given, all six limit keys are present with
absent fields mapped to `None`, while without it the six keys are absent. -/
theorem c5_amended_theorem (r : BuildRequest) (dval : Option String)
    (ps : List (String × PV)) (h : marshalParams r dval = Except.ok ps) :
    lookupParam ps "t" = some (ovStr r.tag)
    ∧ lookupParam ps "target" = some (ovStr r.target)
    ∧ lookupParam ps "platform" = some (ovStr r.platform)
    ∧ lookupParam ps "q" = some (ovBool r.quiet)
    ∧ lookupParam ps "buildargs" =
        (if r.buildargs = [] then none else some (PV.jsonOfDict r.buildargs))
    ∧ lookupParam ps "cachefrom" =
        (if r.cache_from = [] then none else some (PV.jsonOfList r.cache_from))
    ∧ lookupParam ps "extrahosts" =
        (if r.extra_hosts = [] then none else some (PV.jsonOfDict r.extra_hosts))
    ∧ lookupParam ps "labels" =
        (if r.labels = [] then none else some (PV.jsonOfDict r.labels))
    ∧ lookupParam ps "memory" =
        (match r.container_limits with
         | none => none
         | some cl => some (ovInt cl.memory))
    ∧ lookupParam ps "memswap" =
        (match r.container_limits with
         | none => none
         | some cl => some (ovInt cl.memswap))
    ∧ lookupParam ps "cpushares" =
        (match r.container_limits with
         | none => none
         | some cl => some (ovInt cl.cpushares))
    ∧ lookupParam ps "cpusetcpus" =
        (match r.container_limits with
         | none => none
         | some cl => some (ovStr cl.cpusetcpus))
    ∧ lookupParam ps "cpuperiod" =
        (match r.container_limits with
         | none => none
         | some cl => some (ovInt cl.cpuperiod))
    ∧ lookupParam ps "cpuquota" =
        (match r.container_limits with
         | none => none
         | some cl => some (ovInt cl.cpuquota)) :=
  marshalParams_lookup r dval ps h

/-- Claim C5 fails as stated: with only `path` and
`container_limits={"memory": 100}` given, the mapping still carries the
keys of unset options — `t`, `platform` and `cpuperiod` are present and map
to `None` instead of being omitted. -/
theorem c5_counterexample :
    marshalParams req5 (some "Dockerfile") = Except.ok ps5
    ∧ lookupParam ps5 "t" = some PV.null
    ∧ lookupParam ps5 "platform" = some PV.null
    ∧ lookupParam ps5 "cpuperiod" = some PV.null
    ∧ lookupParam ps5 "memory" = some (PV.int 100) :=
  ⟨rfl, rfl, rfl, rfl, rfl⟩

/-- Witness for C5, instantiated at `req5`. -/
theorem c5_witness :
    lookupParam ps5 "t" = some PV.null
    ∧ lookupParam ps5 "target" = some PV.null
    ∧ lookupParam ps5 "platform" = some PV.null
    ∧ lookupParam ps5 "q" = some PV.null
    ∧ lookupParam ps5 "buildargs" = none
    ∧ lookupParam ps5 "cachefrom" = none
    ∧ lookupParam ps5 "extrahosts" = none
    ∧ lookupParam ps5 "labels" = none
    ∧ lookupParam ps5 "memory" = some (PV.int 100)
    ∧ lookupParam ps5 "memswap" = some PV.null
    ∧ lookupParam ps5 "cpushares" = some PV.null
    ∧ lookupParam ps5 "cpusetcpus" = some PV.null
    ∧ lookupParam ps5 "cpuperiod" = some PV.null
    ∧ lookupParam ps5 "cpuquota" = some PV.null :=
  c5_amended_theorem req5 (some "Dockerfile") ps5 rfl

/-- Claim C6: a stream that decodes throughout, carries no error event and
no marker-matching line ends in a build failure, never silent success; the
message is the raw text of the last line seen — a decoded JSON line is
never the empty string, hence the `rawOf` hypothesis — or `"Unknown"` for
an empty stream, and the attached replay view is the whole stream (empty
for an empty stream). -/
theorem c6_theorem (lines : List Line)
    (hok : ∀ l ∈ lines, lineOk l = true)
    (hnc : ∀ l ∈ lines, lineCapture l = none)
    (hraw : ∀ l ∈ lines, l.rawOf ≠ "") :
    interpret lines =
      Outcome.failure
        (match lastRaw lines with
         | some r => r
         | none => "Unknown") lines := by
  rw [interpret_no_error lines hok, lastCapture_eq_none lines hnc]
  cases hlr : lastRaw lines with
  | none => rfl
  | some r =>
    obtain ⟨l, hl, hlraw⟩ := lastRaw_mem lines r hlr
    have hr : r ≠ "" := hlraw ▸ hraw l hl
    simp [pyOrUnknown, hr]

/-- Witness for C6: a two-line marker-free stream fails with the last raw
line, and the empty stream fails with `"Unknown"` and an empty log. -/
theorem c6_witness :
    interpret [wStep, wPlain] = Outcome.failure "wp" [wStep, wPlain]
    ∧ interpret ([] : List Line) = Outcome.failure "Unknown" [] :=
  ⟨c6_theorem [wStep, wPlain] (by decide) (by decide) (by decide),
   c6_theorem [] (by decide) (by decide) (by decide)⟩

/-- Claim C7: the first `volumes` entry without a bind path raises a
`ValueError` naming the offending host path; the first entry whose mode is
a scalar rather than a list raises a `ValueError`; valid entries flatten to
`hostPath:bindPath:modeFlagsJoinedByComma` (an empty mode list leaves the
trailing segment empty); and a `volumes` `ValueError` ends the call as
`valueFail` with the untouched default trace — in particular
`postCalled = false`, before any network call. -/
theorem c7_theorem (pre post : List (String × VolumeSpec)) (host b sc : String)
    (md : ModeField) (vols : List (String × VolumeSpec)) (env : PostOutcome)
    (pd dn : String) (r : BuildRequest) (m : String)
    (hpre : ∀ e ∈ pre, volumeOk e = true)
    (hvols : ∀ e ∈ vols, volumeOk e = true)
    (hctx : ¬(r.path = none ∧ r.fileobj = none ∧ r.remote = none))
    (hgz : ¬(r.gzipKw = true ∧ r.encodingKw = true))
    (hm : marshalVolumes r.volumes = Except.error m) :
    marshalVolumes (pre ++ (host, { bind := none, mode := md }) :: post) =
      Except.error ("volume " ++ host ++ " 'bind' value not defined")
    ∧ marshalVolumes
        (pre ++ (host, { bind := some b, mode := ModeField.scalar sc }) :: post) =
      Except.error ("volume " ++ host ++ " 'mode' value should be a list")
    ∧ marshalVolumes vols = Except.ok (vols.map volumeFmt)
    ∧ build env pd dn r = (BuildResult.valueFail m, {}) :=
  ⟨marshalVolumes_error_bind pre post host _ hpre rfl,
   marshalVolumes_error_scalar pre post host _ hpre b sc rfl rfl,
   marshalVolumes_ok vols hvols,
   build_volumes_error env pd dn r m hctx hgz
     (marshalParams_volumes_error r _ m hm)⟩

/-- Witness for C7: a missing-bind entry after a valid one, a scalar-mode
entry, a valid entry with an empty mode list (note the trailing `:`), and
`req7` ending in `valueFail` with no POST. -/
theorem c7_witness :
    marshalVolumes [("/h", { bind := some "/ok", mode := ModeField.seq ["ro"] }),
        ("/bad", { bind := none, mode := ModeField.absent })] =
      Except.error "volume /bad 'bind' value not defined"
    ∧ marshalVolumes [("/h", { bind := some "/ok", mode := ModeField.seq ["ro"] }),
        ("/bad", { bind := some "/b", mode := ModeField.scalar "ro" })] =
      Except.error "volume /bad 'mode' value should be a list"
    ∧ marshalVolumes [("/a", { bind := some "/c", mode := ModeField.seq [] })] =
      Except.ok ["/a:/c:"]
    ∧ build (PostOutcome.resp 200 []) "pd" "df" req7 =
      (BuildResult.valueFail "volume /x 'bind' value not defined", {}) :=
  c7_theorem [("/h", { bind := some "/ok", mode := ModeField.seq ["ro"] })] []
    "/bad" "/b" "ro" ModeField.absent
    [("/a", { bind := some "/c", mode := ModeField.seq [] })]
    (PostOutcome.resp 200 []) "pd" "df" req7
    "volume /x 'bind' value not defined"
    (by decide) (by decide) (by decide) (by decide) rfl

/-- Claim C8: with no context source at all — `path`, `fileobj` and
`remote` all `None` — the call raises the `TypeError` of source line 143
immediately; the returned trace is the default one, so `postCalled = false`
and no network interaction was attempted. -/
theorem c8_theorem (env : PostOutcome) (pd dn : String) (r : BuildRequest)
    (h1 : r.path = none) (h2 : r.fileobj = none) (h3 : r.remote = none) :
    build env pd dn r =
      (BuildResult.typeFail "Either path, fileobj or remote must be provided.",
       {}) := by
  unfold build
  rw [if_pos ⟨h1, h2, h3⟩]

/-- Witness for C8: the all-defaults call. -/
theorem c8_witness :
    build (PostOutcome.resp 200 []) "pd" "df" {} =
      (BuildResult.typeFail "Either path, fileobj or remote must be provided.",
       {}) :=
  c8_theorem (PostOutcome.resp 200 []) "pd" "df" {} rfl rfl rfl

/-- Claim C9: when several context sources are supplied the call raises no
error; it picks one by the fixed `if`/`elif` priority of source lines
198-227 — custom pre-built context, then loose file object, then directory
path, then remote URI — reaches the POST (`postCalled = true`) and ignores
the lower-priority sources.  Each conjunct supplies all lower-priority
sources alongside the selected one. -/
theorem c9_theorem (env : PostOutcome) (pd dn dname p sr : String)
    (r : BuildRequest)
    (hgz : ¬(r.gzipKw = true ∧ r.encodingKw = true))
    (hv : ∀ e ∈ r.volumes, volumeOk e = true)
    (hdf : resolveDockerfile r.dockerfile dn = some dname)
    (hsr : sr ≠ "") :
    ((build env pd dn { r with
        custom_context := some true
        fileobj := some ()
        path := some p
        remote := some sr }).2.mode = some CtxMode.customCtx
      ∧ (build env pd dn { r with
          custom_context := some true
          fileobj := some ()
          path := some p
          remote := some sr }).2.postCalled = true)
    ∧ ((build env pd dn { r with
        custom_context := none
        fileobj := some ()
        path := some p
        remote := some sr }).2.mode = some CtxMode.looseFile
      ∧ (build env pd dn { r with
          custom_context := none
          fileobj := some ()
          path := some p
          remote := some sr }).2.postCalled = true)
    ∧ ((build env pd dn { r with
        custom_context := none
        fileobj := none
        path := some p
        remote := some sr }).2.mode = some CtxMode.directory
      ∧ (build env pd dn { r with
          custom_context := none
          fileobj := none
          path := some p
          remote := some sr }).2.postCalled = true)
    ∧ ((build env pd dn { r with
        custom_context := none
        fileobj := none
        path := none
        remote := some sr }).2.mode = some CtxMode.remoteUri
      ∧ (build env pd dn { r with
          custom_context := none
          fileobj := none
          path := none
          remote := some sr }).2.postCalled = true) :=
  ⟨build_mode_custom env pd dn dname _ hgz hv rfl rfl hdf,
   build_mode_loose env pd dn _ hgz hv rfl rfl,
   build_mode_directory env pd dn p _ hgz hv rfl rfl rfl,
   build_mode_remote env pd dn sr _ hgz hv rfl rfl rfl rfl hsr⟩

/-- Witness for C9, over `req9` (a directory path and a remote URI are
always present; file object and custom context added per conjunct). -/
theorem c9_witness :
    ((build (PostOutcome.resp 200 []) "pd" "df" { req9 with
        custom_context := some true
        fileobj := some ()
        path := some "/dir"
        remote := some "http://r" }).2.mode = some CtxMode.customCtx
      ∧ (build (PostOutcome.resp 200 []) "pd" "df" { req9 with
          custom_context := some true
          fileobj := some ()
          path := some "/dir"
          remote := some "http://r" }).2.postCalled = true)
    ∧ ((build (PostOutcome.resp 200 []) "pd" "df" { req9 with
        custom_context := none
        fileobj := some ()
        path := some "/dir"
        remote := some "http://r" }).2.mode = some CtxMode.looseFile
      ∧ (build (PostOutcome.resp 200 []) "pd" "df" { req9 with
          custom_context := none
          fileobj := some ()
          path := some "/dir"
          remote := some "http://r" }).2.postCalled = true)
    ∧ ((build (PostOutcome.resp 200 []) "pd" "df" { req9 with
        custom_context := none
        fileobj := none
        path := some "/dir"
        remote := some "http://r" }).2.mode = some CtxMode.directory
      ∧ (build (PostOutcome.resp 200 []) "pd" "df" { req9 with
          custom_context := none
          fileobj := none
          path := some "/dir"
          remote := some "http://r" }).2.postCalled = true)
    ∧ ((build (PostOutcome.resp 200 []) "pd" "df" { req9 with
        custom_context := none
        fileobj := none
        path := none
        remote := some "http://r" }).2.mode = some CtxMode.remoteUri
      ∧ (build (PostOutcome.resp 200 []) "pd" "df" { req9 with
          custom_context := none
          fileobj := none
          path := none
          remote := some "http://r" }).2.postCalled = true) :=
  c9_theorem (PostOutcome.resp 200 []) "pd" "df" "df" "/dir" "http://r" req9
    (by decide) (by decide) rfl (by decide)

/-- Claim C10: a line `json.loads` cannot decode, reached by the scan (all
earlier lines decode and carry no error), escapes as a `JSONDecodeError` —
`Outcome.jsonFail`, which is not a build failure and carries no attached
log view — whatever follows that line. -/
theorem c10_theorem (pre post : List Line) (raw : String)
    (hok : ∀ l ∈ pre, lineOk l = true) :
    interpret (pre ++ Line.malformed raw :: post) = Outcome.jsonFail :=
  scanLoop_first_malformed (pre ++ Line.malformed raw :: post)
    pre post raw none none hok

/-- Witness for C10: an undecodable line after a progress line and before a
marker line. -/
theorem c10_witness :
    interpret ([wStep] ++ Line.malformed "not json" :: [wMark1]) =
      Outcome.jsonFail :=
  c10_theorem [wStep] [wMark1] "not json" (by decide)

end PodmanBuild
